import Mathlib

/-!
Verification development for the boston_events repository
(src/getvenue.py and src/get_events.py).

The repository is a set of venue-calendar adapters that fetch HTTP
responses, parse them, and emit normalized event records.  We embed the
Python code shallowly:

* Python `datetime` objects become `PyDatetime` (field ranges are
  guaranteed by the real datetime constructor, so digit rendering uses
  `% 10` per digit, which agrees with `%02d`-style padding on every
  value a datetime can hold);
* external libraries (requests, BeautifulSoup, dateutil, demjson,
  json.loads, strptime) become oracle fields of a `Libs` structure or a
  `Network` structure, since their internals are not part of this
  repository;
* Python exceptions become `Except PyErr`;
* the two concrete regular expressions used by the middleeast adapter
  are implemented directly over character lists;
* JSON-formattable output objects become ordered key/value lists.
-/

namespace GV

/-- A Python `datetime.datetime` value: date and time fields plus an
optional UTC-offset in minutes (`none` for a naive datetime).  Field
ranges (month 1..12, hour 0..23, microsecond 0..999999, ...) are
enforced by the real datetime constructor. -/
structure PyDatetime where
  year : Nat
  month : Nat
  day : Nat
  hour : Nat
  minute : Nat
  second : Nat
  micro : Nat
  tz : Option Int
  deriving DecidableEq

/-- Last decimal digit of a natural number, as a character. -/
def dig (n : Nat) : Char := Nat.digitChar (n % 10)

/-- Two-digit zero-padded rendering, as used by `datetime.isoformat`
for month/day/hour/minute/second (fields are below 100). -/
def d2 (n : Nat) : List Char := [dig (n / 10), dig n]

/-- Four-digit zero-padded rendering, used for the year (1..9999). -/
def d4 (n : Nat) : List Char :=
  [dig (n / 1000), dig (n / 100), dig (n / 10), dig n]

/-- Six-digit zero-padded rendering, used for microseconds. -/
def d6 (n : Nat) : List Char :=
  [dig (n / 100000), dig (n / 10000), dig (n / 1000), dig (n / 100),
   dig (n / 10), dig n]

/-- The UTC-offset suffix emitted by `datetime.isoformat`: empty for a
naive datetime, otherwise a sign and `HH:MM` from the absolute offset
in minutes. -/
def offsetChars : Option Int → List Char
  | none => []
  | some off =>
    let sign : Char := if off < 0 then '-' else '+'
    let a := off.natAbs
    sign :: (d2 (a / 60) ++ ':' :: d2 (a % 60))

/-- The fractional-seconds part of `datetime.isoformat`: present
exactly when the microsecond field is nonzero. -/
def fracChars (micro : Nat) : List Char :=
  if micro = 0 then [] else '.' :: d6 micro

/-- `datetime.isoformat()` as a character list. -/
def isoformatL (d : PyDatetime) : List Char :=
  d4 d.year ++ '-' :: (d2 d.month ++ '-' :: (d2 d.day ++ 'T' ::
    (d2 d.hour ++ ':' :: (d2 d.minute ++ ':' ::
      (d2 d.second ++ fracChars d.micro ++ offsetChars d.tz)))))

/-- `datetime.isoformat()` (the `start` rendering used by
`Event.to_json`). -/
def isoformat (d : PyDatetime) : String := String.mk (isoformatL d)

/-- Consume exactly `n` decimal digits. -/
def chkDigits : Nat → List Char → Option (List Char)
  | 0, cs => some cs
  | n + 1, c :: cs => if c.isDigit then chkDigits n cs else none
  | _ + 1, [] => none

/-- Consume an optional fractional-seconds part: a dot followed by six
digits, or nothing. -/
def chkFrac : List Char → Option (List Char)
  | '.' :: cs => chkDigits 6 cs
  | cs => some cs

/-- Recognize an optional trailing UTC offset `±HH:MM` and then end of
input. -/
def chkOffset : List Char → Bool
  | [] => true
  | c :: cs =>
    (c = '+' || c = '-') &&
    (match chkDigits 2 cs with
     | some (':' :: rest) =>
       match chkDigits 2 rest with
       | some [] => true
       | _ => false
     | _ => false)

/-- Recognizer for ISO-8601 timestamp strings of the shape
`YYYY-MM-DDTHH:MM:SS[.ffffff][±HH:MM]`, written from the specification
side (the documented output format), independent of `isoformat`. -/
def isIso8601L (cs : List Char) : Bool :=
  match chkDigits 4 cs with
  | some ('-' :: r1) =>
    match chkDigits 2 r1 with
    | some ('-' :: r2) =>
      match chkDigits 2 r2 with
      | some ('T' :: r3) =>
        match chkDigits 2 r3 with
        | some (':' :: r4) =>
          match chkDigits 2 r4 with
          | some (':' :: r5) =>
            match chkDigits 2 r5 with
            | some r6 =>
              match chkFrac r6 with
              | some r7 => chkOffset r7
              | none => false
            | none => false
          | _ => false
        | _ => false
      | _ => false
    | _ => false
  | _ => false

/-- String-level ISO-8601 recognizer. -/
def isIso8601 (s : String) : Bool := isIso8601L s.toList

/-- A generic JSON-like value, as produced by `demjson.decode` or
`json.loads` and as stored in the serialized event objects. -/
inductive JVal where
  | str : String → JVal
  | num : Int → JVal
  | bool : Bool → JVal
  | null : JVal
  | arr : List JVal → JVal
  | obj : List (String × JVal) → JVal

/-- The plain JSON-formattable object produced by `Event.to_json`: an
ordered mapping from keys to values (Python dicts keep insertion
order). -/
def EJson := List (String × JVal)

/-- Python exceptions that the embedded code can raise. -/
inductive PyErr where
  | attributeError : String → PyErr
  | keyError : String → PyErr
  | indexError : PyErr
  | typeError : String → PyErr
  | valueError : String → PyErr
  | decodeError : String → PyErr
  deriving DecidableEq

/-- The `Event` class of getvenue.py: venue, bands, start, link,
soldout. -/
structure Event where
  venue : String
  bands : List String
  start : PyDatetime
  link : String
  soldout : Bool

/-- `Event.__init__`: each keyword argument is optional.  Crucially,
Python evaluates default-argument expressions once, when the `def`
statement itself runs (at class-definition / module-import time); so
the default for `start` is a single fixed datetime value
(`classStart`, the value `datetime.datetime.today()` had when the
module was imported), shared by every default construction. -/
def Event.init (classStart : PyDatetime) (venue : Option String)
    (bands : Option (List String)) (start : Option PyDatetime)
    (link : Option String) (soldout : Option Bool) : Event :=
  { venue := venue.getD ""
    bands := bands.getD []
    start := start.getD classStart
    link := link.getD ""
    soldout := soldout.getD false }

/-- `Event()` with no arguments, as used by `bowery_event_process`. -/
def Event.mkDefault (classStart : PyDatetime) : Event :=
  Event.init classStart none none none none none

/-- `Event.to_json`: the five-key serializable object, with `start`
rendered via `isoformat`. -/
def Event.to_json (ev : Event) : EJson :=
  [("venue", JVal.str ev.venue),
   ("bands", JVal.arr (ev.bands.map JVal.str)),
   ("start", JVal.str (isoformat ev.start)),
   ("link", JVal.str ev.link),
   ("soldout", JVal.bool ev.soldout)]

/-- The record shape documented for all adapters: exactly the five
keys, and the `start` value an ISO-8601 string. -/
def goodRecord (r : EJson) : Prop :=
  (r.map Prod.fst = ["venue", "bands", "start", "link", "soldout"]) ∧
  ∃ s, r.lookup "start" = some (JVal.str s) ∧ isIso8601 s = true

/-! ### Python string helpers used by the adapters -/

/-- The character class matched by `\s` in Python regular expressions
(ASCII part) and stripped by `str.strip()`. -/
def pySpace (c : Char) : Bool :=
  c = ' ' || c = '\t' || c = '\n' || c = '\r' || c = '\x0b' || c = '\x0c'

/-- `str.strip()`: drop whitespace from both ends. -/
def pyStrip (s : String) : String :=
  String.mk (((s.toList.dropWhile pySpace).reverse.dropWhile pySpace).reverse)

/-- `str.lower()` (character-wise; the adapters only compare ASCII
names, where `Char.toLower` agrees with Python). -/
def pyLower (s : String) : String := String.mk (s.toList.map Char.toLower)

/-- `re.sub(r'^with\s*', '', s)`: if `s` starts with the literal
`with`, remove it and any immediately following whitespace. -/
def subWithIntro (s : String) : String :=
  match s.toList with
  | 'w' :: 'i' :: 't' :: 'h' :: rest => String.mk (rest.dropWhile pySpace)
  | _ => s

/-- Split a character list at every separator character, keeping empty
pieces (the behavior of `re.split` with single-character
alternatives). -/
def splitCharsBy (p : Char → Bool) : List Char → List (List Char)
  | [] => [[]]
  | c :: cs =>
    if p c then [] :: splitCharsBy p cs
    else
      match splitCharsBy p cs with
      | r :: rs => (c :: r) :: rs
      | [] => [[c]]

/-- `re.split(r',|\|', s)`: split at every comma or vertical bar,
keeping empty pieces. -/
def splitCommaBar (s : String) : List String :=
  (splitCharsBy (fun c => c = ',' || c = '|') s.toList).map String.mk

/-- `str.split(', ')`: split at each occurrence of the two-character
comma-space separator, leftmost first, keeping empty pieces. -/
def splitCommaSpaceL : List Char → List (List Char)
  | [] => [[]]
  | ',' :: ' ' :: rest => [] :: splitCommaSpaceL rest
  | c :: rest =>
    match splitCommaSpaceL rest with
    | r :: rs => (c :: r) :: rs
    | [] => [[c]]

/-- String-level wrapper for the comma-space split. -/
def splitCommaSpace (s : String) : List String :=
  (splitCommaSpaceL s.toList).map String.mk

/-- `s.lower().encode('ascii', 'ignore')` from the houseofblues
comparison: lowercase character-wise, then drop every non-ASCII
character (code point above 127). -/
def hobNorm (s : String) : List Char :=
  (s.toList.map Char.toLower).filter (fun c => c.toNat ≤ 127)

/-- Python slicing `s[1:-1]`: drop the first and last character. -/
def sliceDropEnds (s : String) : String :=
  String.mk ((s.toList.drop 1).dropLast)

/-- List-level worker for `unescapeQuotes`. -/
def unescapeQuotesL : List Char → List Char
  | '\\' :: '"' :: rest => '"' :: unescapeQuotesL rest
  | c :: rest => c :: unescapeQuotesL rest
  | [] => []

/-- `re.sub(r'\\"', '"', s)`: rewrite every backslash-quote pair into a
bare quote. -/
def unescapeQuotes (s : String) : String :=
  String.mk (unescapeQuotesL s.toList)

/-! ### Inputs of the HTML-calendar adapter (Bowery)

`BeautifulSoup` is an external library; a show-item element is
represented by the results of exactly the sub-element lookups that
`bowery_event_process` performs on it.  `none` means the lookup finds
no matching sub-element (BeautifulSoup returns `None`).  Text fields
hold the already-extracted `get_text(strip=True)` value; attribute
fields are `none` when the tag lacks that attribute (so that the
Python subscript raises `KeyError`). -/

/-- The first hyperlink of the show item (`e.find('a')`). -/
structure ATag where
  href : Option String

/-- The Google calendar link
(`e.select_one("a.calendar-dropdown-item.google")`). -/
structure CalLink where
  dataStart : Option String

/-- The location paragraph (`e.find('p', class_='list-location')`);
`strong` is the text of its `<strong>` child, if any. -/
structure LocP where
  strong : Option String

/-- The title block (`e.find('div', class_='info-title')`);
`firstAText` is the text of its first `<a>`, if any. -/
structure TitleDiv where
  firstAText : Option String

/-- The supporting-acts block (`e.find('div', 'supporting-acts')`);
`spanText` is the text of its `<span>` child, if any (a missing span
makes the Python chain raise). -/
structure SuppDiv where
  spanText : Option String

/-- One `div.show-item` element, by the outcomes of the six lookups
the parser performs. -/
structure ShowItem where
  firstA : Option ATag
  calendar : Option CalLink
  listLocation : Option LocP
  infoTitle : Option TitleDiv
  supporting : Option SuppDiv
  ticketText : Option String

/-! ### Inputs of the conventional JSON-API adapter (House of Blues) -/

/-- One artist object from the houseofblues response. -/
structure HobArtist where
  name : String

/-- One item of `rawobj['result']`. -/
structure HobItem where
  artists : List HobArtist
  title : String
  venueName : String
  eventDate : String
  eventID : String
  soldOut : Bool

/-! ### Inputs of the paginated JSON-API adapter (Crossroads) -/

/-- One artist object of a Crossroads event. -/
structure CrArtist where
  title : String

/-- One event object of a Crossroads month response. -/
structure CrEvent where
  category_param : String
  venueTitle : String
  title : String
  sold_out : Bool
  artists : List CrArtist
  tz_adjusted_begin_date : String
  permalink : String

/-- One event group. -/
structure CrGroup where
  events : List CrEvent

/-- The parsed JSON body of a Crossroads month response. -/
structure CrData where
  event_groups : List CrGroup

/-! ### External libraries as oracles -/

/-- The external libraries the module imports, as oracles:
`defaultStart` is the value `datetime.datetime.today()` produced when
the `Event` class body was executed (the shared default-argument
value); `localOffset` is the `dateutil.tz.tzlocal()` UTC offset in
minutes; the parsers return `none` exactly when the real library call
would raise. -/
structure Libs where
  defaultStart : PyDatetime
  localOffset : Int
  dateutilParse : String → Option PyDatetime
  astimezoneLocal : PyDatetime → PyDatetime
  strptimeYmdHMS : String → Option PyDatetime
  demjsonDecode : String → Except String JVal
  findShowItems : String → List ShowItem
  jsonLoadsHob : String → Except String (List HobItem)

/-! ### Dynamic access on decoded JSON values (middleeast items) -/

/-- Python subscript `i[k]` with a string key: `KeyError` when the key
is absent from a dict, `TypeError` when the value is not a dict. -/
def jGet (i : JVal) (k : String) : Except PyErr JVal :=
  match i with
  | JVal.obj kvs =>
    match kvs.lookup k with
    | some v => Except.ok v
    | none => Except.error (PyErr.keyError k)
  | _ => Except.error (PyErr.typeError "not subscriptable")

/-- Using a decoded value where a `str` is required (`re` functions,
`strptime`, string concatenation) raises `TypeError` otherwise. -/
def asString (v : JVal) : Except PyErr String :=
  match v with
  | JVal.str s => Except.ok s
  | _ => Except.error (PyErr.typeError "expected str")

/-- Python iteration `for i in obj`: lists yield their elements,
strings their characters, dicts their keys; other values raise
`TypeError`. -/
def pyIter (v : JVal) : Except PyErr (List JVal) :=
  match v with
  | JVal.arr xs => Except.ok xs
  | JVal.str s => Except.ok (s.toList.map (fun c => JVal.str (String.mk [c])))
  | JVal.obj kvs => Except.ok (kvs.map (fun kv => JVal.str kv.1))
  | _ => Except.error (PyErr.typeError "not iterable")

/-! ### The two concrete regular expressions of the middleeast adapter -/

/-- Attempt of `<div[^<>]*>([^<]+)` at the head of the input: the
literal `<div`, a greedy run of characters other than `<` and `>`, a
`>`, then a nonempty greedy run of characters other than `<` (the
capture group). -/
def meVenueAt : List Char → Option (List Char)
  | '<' :: 'd' :: 'i' :: 'v' :: rest =>
    match rest.dropWhile (fun c => c ≠ '<' && c ≠ '>') with
    | '>' :: rest2 =>
      let g := rest2.takeWhile (fun c => c ≠ '<')
      if g.isEmpty then none else some g
    | _ => none
  | _ => none

/-- `re.search`: try the pattern at each position, leftmost first. -/
def meVenueSearchL : List Char → Option (List Char)
  | [] => none
  | c :: cs =>
    match meVenueAt (c :: cs) with
    | some g => some g
    | none => meVenueSearchL cs

/-- Group 1 of `re.search(r'<div[^<>]*>([^<]+)', s)`, or `none` when
the pattern does not match (`.group(1)` then raises
`AttributeError`). -/
def meVenueSearch (s : String) : Option String :=
  (meVenueSearchL s.toList).map String.mk

/-- Characters strictly before the first `]`, or `none` if there is no
`]` (the lazy `.*?` of the events regex). -/
def takeUntilRBr : List Char → Option (List Char)
  | [] => none
  | ']' :: _ => some []
  | c :: cs => (takeUntilRBr cs).map (fun l => c :: l)

/-- Attempt of `events: (\[.*?])` (DOTALL) at the head of the input:
the literal `events: `, then the capture group: `[`, the shortest run
up to a `]`, and that `]`. -/
def meEventsAt : List Char → Option (List Char)
  | 'e' :: 'v' :: 'e' :: 'n' :: 't' :: 's' :: ':' :: ' ' :: '[' :: rest =>
    (takeUntilRBr rest).map (fun mid => '[' :: (mid ++ [']']))
  | _ => none

/-- `re.search` scan for the events regex. -/
def meEventsSearchL : List Char → Option (List Char)
  | [] => none
  | c :: cs =>
    match meEventsAt (c :: cs) with
    | some g => some g
    | none => meEventsSearchL cs

/-- Group 1 of `re.search(r'events: (\[.*?])', data, flags=re.S)`. -/
def meEventsSearch (s : String) : Option String :=
  (meEventsSearchL s.toList).map String.mk

/-- A Python for-loop appending `f a` to an accumulator: the first
raised exception aborts the whole call. -/
def exMapList {α β : Type} (f : α → Except PyErr β) : List α → Except PyErr (List β)
  | [] => Except.ok []
  | a :: as =>
    f a >>= fun b =>
    exMapList f as >>= fun bs =>
    Except.ok (b :: bs)

/-! ### bowery_event_process / bowery_shows (HTML-calendar adapter) -/

/-- Lines 102-105: `cursor = e.find('a')`, and on success
`ev.link = 'https://www.boweryboston.com{0}'.format(cursor['href'])`
(the subscript raises `KeyError` when the tag has no href). -/
def boweryLinkStep (e : ShowItem) (ev : Event) : Except PyErr Event :=
  match e.firstA with
  | none => Except.ok ev
  | some a =>
    match a.href with
    | none => Except.error (PyErr.keyError "href")
    | some h => Except.ok { ev with link := "https://www.boweryboston.com" ++ h }

/-- Lines 107-110: the calendar dropdown link; on success
`ev.start = dateutil.parser.parse(cursor['data-start']).astimezone(tzlocal())`. -/
def boweryStartStep (libs : Libs) (e : ShowItem) (ev : Event) : Except PyErr Event :=
  match e.calendar with
  | none => Except.ok ev
  | some c =>
    match c.dataStart with
    | none => Except.error (PyErr.keyError "data-start")
    | some ds =>
      match libs.dateutilParse ds with
      | none => Except.error (PyErr.valueError "dateutil.parser.parse")
      | some d => Except.ok { ev with start := libs.astimezoneLocal d }

/-- Line 112-114: `cursor = e.find('p', class_='list-location').find('strong')`.
The chained call is unguarded: when the location paragraph is missing,
`find` is invoked on `None` and raises `AttributeError`.  When the
paragraph exists but has no `<strong>`, `cursor` is `None` and the
guarded assignment is skipped. -/
def boweryVenueStep (e : ShowItem) (ev : Event) : Except PyErr Event :=
  match e.listLocation with
  | none => Except.error (PyErr.attributeError "NoneType has no attribute find")
  | some p =>
    match p.strong with
    | none => Except.ok ev
    | some s => Except.ok { ev with venue := s }

/-- Lines 116-131: headliner from the first `<a>` of the info-title
block (appended when its stripped text is nonempty), then supporting
acts: the `with ` intro removed, split on `', '`, empty pieces
dropped.  The `cursor.find('span')` chain raises when the
supporting-acts block has no `<span>`.  Finally `ev.bands = bands`. -/
def boweryBandsStep (e : ShowItem) (ev : Event) : Except PyErr Event :=
  match e.infoTitle with
  | none => Except.ok { ev with bands := [] }
  | some tdiv =>
    let bands0 : List String :=
      match tdiv.firstAText with
      | some t => if t ≠ "" then [t] else []
      | none => []
    match e.supporting with
    | none => Except.ok { ev with bands := bands0 }
    | some sdiv =>
      match sdiv.spanText with
      | none => Except.error (PyErr.attributeError "NoneType has no attribute get_text")
      | some st =>
        let supp := (splitCommaSpace (subWithIntro st)).filter (fun i => i ≠ "")
        Except.ok { ev with bands := bands0 ++ supp }

/-- Lines 133-136: `ev.soldout = True` exactly when the primary ticket
button exists and its stripped text lowercases to `sold out`. -/
def boweryTicketStep (e : ShowItem) (ev : Event) : Event :=
  match e.ticketText with
  | some t => if pyLower t = "sold out" then { ev with soldout := true } else ev
  | none => ev

/-- `bowery_event_process` up to the final `to_json`: start from
`Event()` and apply the five field-extraction steps in source order. -/
def boweryEvent (libs : Libs) (e : ShowItem) : Except PyErr Event :=
  boweryLinkStep e (Event.mkDefault libs.defaultStart) >>= fun ev1 =>
  boweryStartStep libs e ev1 >>= fun ev2 =>
  boweryVenueStep e ev2 >>= fun ev3 =>
  boweryBandsStep e ev3 >>= fun ev4 =>
  Except.ok (boweryTicketStep e ev4)

/-- `bowery_event_process(e)`: returns `ev.to_json()`. -/
def bowery_event_process (libs : Libs) (e : ShowItem) : Except PyErr EJson :=
  (boweryEvent libs e).map Event.to_json

/-- `bowery_shows()`: parse every `div.show-item` of the response in
document order (the HTTP fetch and soup construction are external;
`respText` is the response body). -/
def bowery_shows (libs : Libs) (respText : String) : Except PyErr (List EJson) :=
  exMapList (bowery_event_process libs) (libs.findShowItems respText)

/-! ### middleeast (embedded-JSON adapter) -/

/-- `re.search(r'<div[^<>]*>([^<]+)', ..).group(1)`: a failed search
returns `None` and the `.group` attribute access raises
`AttributeError`. -/
def meVenueText (vStr : String) : Except PyErr String :=
  match meVenueSearch vStr with
  | some t => Except.ok t
  | none => Except.error (PyErr.attributeError "NoneType has no attribute group")

/-- `datetime.datetime.strptime(s, '%Y-%m-%d %H:%M:%S')` through the
library oracle; a failed parse raises `ValueError`. -/
def meStrptime (libs : Libs) (sStr : String) : Except PyErr PyDatetime :=
  match libs.strptimeYmdHMS sStr with
  | some d => Except.ok d
  | none => Except.error (PyErr.valueError "strptime")

/-- The body of the per-item `try` block in `middleeast`, up to the
final `to_json`: venue text via the nested-div regex, bands from the
title split on commas and vertical bars with each piece stripped,
start via `strptime` with the local timezone attached, link from the
item id. -/
def meItemEvent (libs : Libs) (i : JVal) : Except PyErr Event :=
  jGet i "venue" >>= fun vField =>
  asString vField >>= fun vStr =>
  meVenueText vStr >>= fun ventext =>
  jGet i "title" >>= fun tField =>
  asString tField >>= fun tStr =>
  jGet i "start" >>= fun sField =>
  asString sField >>= fun sStr =>
  meStrptime libs sStr >>= fun d =>
  jGet i "id" >>= fun idField =>
  asString idField >>= fun idStr =>
  Except.ok { venue := ventext
              bands := (splitCommaBar tStr).map pyStrip
              start := { d with tz := some libs.localOffset }
              link := "http://www.mideastoffers.com/event/" ++ idStr
              soldout := false }

/-- One decoded item: the `try` body followed by `to_json`. -/
def meItemExtract (libs : Libs) (i : JVal) : Except PyErr EJson :=
  (meItemEvent libs i).map Event.to_json

/-- The `for i in obj` loop with its bare `except: pass`: a failing
item is dropped, every other item contributes its record. -/
def meItemsLoop (libs : Libs) : List JVal → List EJson
  | [] => []
  | i :: rest =>
    match meItemExtract libs i with
    | Except.ok r => r :: meItemsLoop libs rest
    | Except.error _ => meItemsLoop libs rest

/-- `middleeast(data)`: regex-extract the events array literal (no
match yields no events), decode it leniently (a decode failure
escapes: it is outside the per-item `try`), iterate, and collect the
per-item successes. -/
def middleeast (libs : Libs) (data : String) : Except PyErr (List EJson) :=
  match meEventsSearch data with
  | none => Except.ok []
  | some captured =>
    match libs.demjsonDecode captured with
    | Except.error e => Except.error (PyErr.decodeError e)
    | Except.ok obj =>
      match pyIter obj with
      | Except.error e => Except.error e
      | Except.ok items => Except.ok (meItemsLoop libs items)

/-! ### crossroads_parse (paginated JSON-API adapter) -/

/-- One music event (lines 262-266): bands are the artist titles when
any artists are present, else the singleton event title; the
timezone-aware begin date is parsed as-is; `soldout` is set exactly
when the sold-out flag is truthy. -/
def crEvent (libs : Libs) (e : CrEvent) : Except PyErr Event :=
  match libs.dateutilParse e.tz_adjusted_begin_date with
  | none => Except.error (PyErr.valueError "dateutil.parser.parse")
  | some d =>
    Except.ok { venue := e.venueTitle
                bands := if e.artists.isEmpty then [e.title]
                         else e.artists.map CrArtist.title
                start := d
                link := "http://events.crossroadspresents.com" ++ e.permalink
                soldout := e.sold_out }

/-- One music event, serialized. -/
def crEventProcess (libs : Libs) (e : CrEvent) : Except PyErr EJson :=
  (crEvent libs e).map Event.to_json

/-- The inner loop: keep only events whose `category_param` is
`music`. -/
def crEventsLoop (libs : Libs) : List CrEvent → Except PyErr (List EJson)
  | [] => Except.ok []
  | e :: rest =>
    if e.category_param = "music" then
      crEventProcess libs e >>= fun r =>
      crEventsLoop libs rest >>= fun tail =>
      Except.ok (r :: tail)
    else crEventsLoop libs rest

/-- `crossroads_parse(data)`: nested loops over the event groups and
their events. -/
def crossroads_parse (libs : Libs) (data : CrData) : Except PyErr (List EJson) :=
  crEventsLoop libs (data.event_groups.flatMap CrGroup.events)

/-! ### houseofblues (conventional JSON-API adapter) -/

/-- One result item (lines 158-167): `artist_array.pop(0)` raises
`IndexError` on an empty artist list; each remaining artist is kept
when its normalized name differs from the normalized event title. -/
def hobEvent (libs : Libs) (i : HobItem) : Except PyErr Event :=
  match i.artists with
  | [] => Except.error PyErr.indexError
  | first :: rest =>
    let bands := first.name ::
      (rest.filter (fun a => !(hobNorm a.name == hobNorm i.title))).map HobArtist.name
    match libs.dateutilParse i.eventDate with
    | none => Except.error (PyErr.valueError "dateutil.parser.parse")
    | some d =>
      Except.ok { venue := i.venueName
                  bands := bands
                  start := { d with tz := some libs.localOffset }
                  link := "http://www.houseofblues.com/boston/EventDetail?tmeventid="
                            ++ i.eventID ++ "&offerid=0"
                  soldout := i.soldOut }

/-- One result item, serialized. -/
def hobItemProcess (libs : Libs) (i : HobItem) : Except PyErr EJson :=
  (hobEvent libs i).map Event.to_json

/-- `houseofblues()` applied to the response body: strip the outer
quote characters, unescape the embedded quotes, parse as JSON (a parse
failure propagates), then process every result item with no per-item
error isolation. -/
def houseofblues (libs : Libs) (respText : String) : Except PyErr (List EJson) :=
  match libs.jsonLoadsHob (unescapeQuotes (sliceDropEnds respText)) with
  | Except.error e => Except.error (PyErr.valueError e)
  | Except.ok items => exMapList (hobItemProcess libs) items

/-! ### monthly_cals (the 12-month loop) -/

/-- Lines 182-185: `cur_date[0] += 1; if cur_date[0] > 12:
cur_date[0] = 1; cur_date[1] += 1`. -/
def monthStep : Nat × Nat → Nat × Nat
  | (m, y) => let m2 := m + 1; if m2 > 12 then (1, y + 1) else (m2, y)

/-- The successive `cur_date` values over `n` loop iterations (the
step happens at the top of each iteration). -/
def monthIter : Nat → Nat × Nat → List (Nat × Nat)
  | 0, _ => []
  | n + 1, my => let my2 := monthStep my; my2 :: monthIter n my2

/-- The 12 month/year pairs requested by `monthly_cals`, starting from
the month and year of `datetime.datetime.today()`. -/
def monthSeq (tm ty : Nat) : List (Nat × Nat) := monthIter 12 (tm, ty)

/-- A mideast calendar-page response: HTTP status and body text. -/
structure MEResp where
  status : Nat
  text : String

/-- A Crossroads month-events response: HTTP status and parsed JSON
body (`r.json()`). -/
structure CrResp where
  status : Nat
  data : CrData

/-- Every HTTP response the aggregated run consumes, keyed the way the
code issues requests: the mideast calendar by month and year query
parameters, the two Crossroads venues by the `period` loop index. -/
structure Network where
  boweryText : String
  hobText : String
  mideast : Nat → Nat → MEResp
  paradise : Nat → CrResp
  brighton : Nat → CrResp

/-- One iteration of the `monthly_cals` loop body (lines 187-204): the
mideast fetch for the current month/year, then the Paradise Rock Club
fetch for the current period, then the Brighton Music Hall fetch; each
response is parsed only when its status is 200, a non-200 response
contributes nothing. -/
def monthlyStep (libs : Libs) (net : Network) (period : Nat) (my : Nat × Nat) :
    Except PyErr (List EJson) :=
  (if (net.mideast my.1 my.2).status = 200 then
     middleeast libs (net.mideast my.1 my.2).text
   else Except.ok []) >>= fun mePart =>
  (if (net.paradise period).status = 200 then
     crossroads_parse libs (net.paradise period).data
   else Except.ok []) >>= fun parPart =>
  (if (net.brighton period).status = 200 then
     crossroads_parse libs (net.brighton period).data
   else Except.ok []) >>= fun briPart =>
  Except.ok (mePart ++ parPart ++ briPart)

/-- The loop over the period / current-date pairs. -/
def monthlyLoop (libs : Libs) (net : Network) :
    List (Nat × (Nat × Nat)) → Except PyErr (List EJson)
  | [] => Except.ok []
  | (p, my) :: rest =>
    monthlyStep libs net p my >>= fun part =>
    monthlyLoop libs net rest >>= fun tail =>
    Except.ok (part ++ tail)

/-- `monthly_cals()`: periods 0 through 11, with the advancing
month/year pair. -/
def monthly_cals (libs : Libs) (net : Network) (tm ty : Nat) :
    Except PyErr (List EJson) :=
  monthlyLoop libs net ((List.range 12).zip (monthSeq tm ty))

/-! ### Specification-side definitions used to state the claims -/

/-- The calendar month after a given month, December rolling over to
January of the next year (the advance the specification describes). -/
def calNextMonth : Nat × Nat → Nat × Nat
  | (m, y) => if m = 12 then (1, y + 1) else (m + 1, y)

/-- Name normalization as the specification words it: lowercased, with
non-ASCII characters stripped. -/
def specNameNorm (s : String) : List Char :=
  (s.toList.map Char.toLower).filter (fun c => c.toNat < 128)

/-- Replace the Paradise response for one period (the simulated
failing request of the error-handling claim). -/
def Network.setParadise (net : Network) (j : Nat) (resp : CrResp) : Network :=
  { net with paradise := fun p => if p = j then resp else net.paradise p }

/-- One loop iteration over the original network, except that the
Paradise contribution of period `j` is dropped: the comparison object
for the skipped-month claim. -/
def monthlyStepDropPar (libs : Libs) (net : Network) (j : Nat) (p : Nat)
    (my : Nat × Nat) : Except PyErr (List EJson) :=
  (if (net.mideast my.1 my.2).status = 200 then
     middleeast libs (net.mideast my.1 my.2).text
   else Except.ok []) >>= fun mePart =>
  (if p = j then Except.ok ([] : List EJson)
   else if (net.paradise p).status = 200 then
     crossroads_parse libs (net.paradise p).data
   else Except.ok []) >>= fun parPart =>
  (if (net.brighton p).status = 200 then
     crossroads_parse libs (net.brighton p).data
   else Except.ok []) >>= fun briPart =>
  Except.ok (mePart ++ parPart ++ briPart)

/-- The month loop with the Paradise contribution of period `j`
dropped and everything else taken from the original network. -/
def monthlyLoopDropPar (libs : Libs) (net : Network) (j : Nat) :
    List (Nat × (Nat × Nat)) → Except PyErr (List EJson)
  | [] => Except.ok []
  | (p, my) :: rest =>
    monthlyStepDropPar libs net j p my >>= fun part =>
    monthlyLoopDropPar libs net j rest >>= fun tail =>
    Except.ok (part ++ tail)

/-- Modelled from the claim: the records of the paginated pair alone,
over all 12 periods (Paradise then Brighton per period). -/
def crossroadsPairAllLoop (libs : Libs) (net : Network) :
    List Nat → Except PyErr (List EJson)
  | [] => Except.ok []
  | p :: rest =>
    (if (net.paradise p).status = 200 then
       crossroads_parse libs (net.paradise p).data
     else Except.ok []) >>= fun parPart =>
    (if (net.brighton p).status = 200 then
       crossroads_parse libs (net.brighton p).data
     else Except.ok []) >>= fun briPart =>
    crossroadsPairAllLoop libs net rest >>= fun tail =>
    Except.ok (parPart ++ briPart ++ tail)

/-- Modelled from the claim: all paginated-pair records, as one block. -/
def crossroadsPairAll (libs : Libs) (net : Network) : Except PyErr (List EJson) :=
  crossroadsPairAllLoop libs net (List.range 12)

/-- Modelled from the claim: the embedded-JSON records alone, over all
12 months. -/
def mideastAllLoop (libs : Libs) (net : Network) :
    List (Nat × Nat) → Except PyErr (List EJson)
  | [] => Except.ok []
  | my :: rest =>
    (if (net.mideast my.1 my.2).status = 200 then
       middleeast libs (net.mideast my.1 my.2).text
     else Except.ok []) >>= fun mePart =>
    mideastAllLoop libs net rest >>= fun tail =>
    Except.ok (mePart ++ tail)

/-- Modelled from the claim: all embedded-JSON records, as one block. -/
def mideastAll (libs : Libs) (net : Network) (tm ty : Nat) :
    Except PyErr (List EJson) :=
  mideastAllLoop libs net (monthSeq tm ty)

/-- Modelled from the claim: the aggregator output in the order the
claim asserts: HTML records, then the paginated pair block, then the
embedded-JSON block, then the conventional-API block. -/
def claimedMainOrder (libs : Libs) (net : Network) (tm ty : Nat) :
    Except PyErr (List EJson) :=
  bowery_shows libs net.boweryText >>= fun b =>
  crossroadsPairAll libs net >>= fun cr =>
  mideastAll libs net tm ty >>= fun me =>
  houseofblues libs net.hobText >>= fun hob =>
  Except.ok (b ++ cr ++ me ++ hob)

/-- Modelled from the claim, with the conventional-API block left out:
HTML records, then the paginated pair block, then the embedded-JSON
block. -/
def claimedMainOrderNoHob (libs : Libs) (net : Network) (tm ty : Nat) :
    Except PyErr (List EJson) :=
  bowery_shows libs net.boweryText >>= fun b =>
  crossroadsPairAll libs net >>= fun cr =>
  mideastAll libs net tm ty >>= fun me =>
  Except.ok (b ++ cr ++ me)

/-- The `start` field of an `Event` constructed with no `start`
argument, in a timeline model: `clock` gives the current time at each
instant, the module was imported at instant `tLoad`, and the
construction happens at instant `tCons`.  Python evaluated the
default-argument expression `datetime.datetime.today()` once, when
the module loaded, so the value is `clock tLoad` whatever `tCons` is. -/
def defaultInitStart (clock : Nat → PyDatetime) (tLoad tCons : Nat) : PyDatetime :=
  (fun _ => (Event.init (clock tLoad) none none none none none).start) tCons

/-- Suffix test on strings, character-list based (used to state the
scenario property that a link ends in a given path). -/
def strEndsWith (s tail : String) : Bool :=
  tail.toList.isSuffixOf s.toList

/-- Projection used to compare concrete outputs: the venue string of a
record. -/
def venueOf (r : EJson) : String :=
  match r.lookup "venue" with
  | some (JVal.str s) => s
  | _ => ""

/-! ### Concrete fixtures for witnesses and counterexamples -/

/-- A sample timezone-aware datetime (2018-03-02 18:00:00-05:00). -/
def sampleDT : PyDatetime :=
  { year := 2018, month := 3, day := 2, hour := 18, minute := 0,
    second := 0, micro := 0, tz := some (-300) }

/-- A sample naive datetime (2018-01-05 20:00:00). -/
def sampleDT2 : PyDatetime :=
  { year := 2018, month := 1, day := 5, hour := 20, minute := 0,
    second := 0, micro := 0, tz := none }

/-- One decoded middleeast item with the four fields the extractor
reads. -/
def meItem (v t s i : String) : JVal :=
  JVal.obj [("venue", JVal.str v), ("title", JVal.str t),
            ("start", JVal.str s), ("id", JVal.str i)]

/-- Five decoded items; item 3 has a malformed nested venue fragment
(no div markup), every other item is well-formed. -/
def meFiveItems : List JVal :=
  [meItem "<div class=v>Middle East Up</div>" "A, B" "2018-01-05 20:00:00" "e1",
   meItem "<div class=v>Middle East Down</div>" "C" "2018-01-05 20:00:00" "e2",
   meItem "no nested fragment" "D" "2018-01-05 20:00:00" "e3",
   meItem "<div class=v>Sonia</div>" "E | F" "2018-01-05 20:00:00" "e4",
   meItem "<div class=v>Zuzu</div>" "G" "2018-01-05 20:00:00" "e5"]

/-- A show item whose location paragraph exists (venue text `The
Sinclair`) and whose every other lookup finds nothing. -/
def exShowItem : ShowItem :=
  { firstA := none, calendar := none,
    listLocation := some { strong := some "The Sinclair" },
    infoTitle := none, supporting := none, ticketText := none }

/-- The houseofblues result item of the worked example: title `Lucy
Dacus`, artists `Lucy Dacus` and `And The Kids`. -/
def exHobItem : HobItem :=
  { artists := [{ name := "Lucy Dacus" }, { name := "And The Kids" }],
    title := "Lucy Dacus", venueName := "House of Blues Boston",
    eventDate := "04/12/2018", eventID := "347671", soldOut := false }

/-- Example oracle libraries: every external parser succeeds with the
fixed sample values above. -/
def exLibs : Libs :=
  { defaultStart := { year := 2018, month := 1, day := 1, hour := 12,
                      minute := 0, second := 0, micro := 500, tz := none }
    localOffset := -300
    dateutilParse := fun _ => some sampleDT
    astimezoneLocal := fun d => { d with tz := some (-300) }
    strptimeYmdHMS := fun _ => some sampleDT2
    demjsonDecode := fun _ => Except.ok (JVal.arr meFiveItems)
    findShowItems := fun _ => [exShowItem]
    jsonLoadsHob := fun _ => Except.ok [exHobItem] }

/-- An empty Crossroads body. -/
def emptyCrData : CrData := { event_groups := [] }

/-- The single music event of the quoted paginated-adapter scenario. -/
def exCrEvent : CrEvent :=
  { category_param := "music", venueTitle := "Paradise Rock Club",
    title := "Show", sold_out := false, artists := [],
    tz_adjusted_begin_date := "2018-03-02T18:00:00-05:00",
    permalink := "/events/x" }

/-- The quoted scenario body: one group holding the one event. -/
def exCrData : CrData := { event_groups := [{ events := [exCrEvent] }] }

/-- An example network: the mideast calendar answers 200 only for
January 2019, Paradise answers 200 only for period 0, Brighton always
404. -/
def exNet : Network :=
  { boweryText := "page"
    hobText := "xx"
    mideast := fun m y =>
      if m = 1 ∧ y = 2019 then { status := 200, text := "events: [x]" }
      else { status := 404, text := "" }
    paradise := fun p =>
      if p = 0 then { status := 200, data := exCrData }
      else { status := 404, data := emptyCrData }
    brighton := fun _ => { status := 404, data := emptyCrData } }

/-- A concrete clock: the current second advances with the instant. -/
def exClock (t : Nat) : PyDatetime :=
  { year := 2020, month := 1, day := 1, hour := 0, minute := 0,
    second := t % 60, micro := 0, tz := none }

/-- A show item where every lookup, the location paragraph included,
finds nothing. -/
def noLocItem : ShowItem :=
  { firstA := none, calendar := none, listLocation := none,
    infoTitle := none, supporting := none, ticketText := none }

/-- A non-success Crossroads response. -/
def failResp : CrResp := { status := 500, data := emptyCrData }

/-- The start datetime the middleeast extractor attaches: the strptime
result with the local offset. -/
def exMeStart : PyDatetime := { sampleDT2 with tz := some (-300) }

/-- Expected record for middleeast item 1. -/
def exMeRec1 : EJson :=
  Event.to_json
    { venue := "Middle East Up", bands := ["A", "B"],
      start := exMeStart, link := "http://www.mideastoffers.com/event/e1",
      soldout := false }

/-- Expected record for middleeast item 2. -/
def exMeRec2 : EJson :=
  Event.to_json
    { venue := "Middle East Down", bands := ["C"],
      start := exMeStart, link := "http://www.mideastoffers.com/event/e2",
      soldout := false }

/-- Expected record for middleeast item 4. -/
def exMeRec4 : EJson :=
  Event.to_json
    { venue := "Sonia", bands := ["E", "F"],
      start := exMeStart, link := "http://www.mideastoffers.com/event/e4",
      soldout := false }

/-- Expected record for middleeast item 5. -/
def exMeRec5 : EJson :=
  Event.to_json
    { venue := "Zuzu", bands := ["G"],
      start := exMeStart, link := "http://www.mideastoffers.com/event/e5",
      soldout := false }

/-- Expected record for the houseofblues example item. -/
def exHobRec : EJson :=
  Event.to_json
    { venue := "House of Blues Boston",
      bands := ["Lucy Dacus", "And The Kids"],
      start := { sampleDT with tz := some (-300) },
      link := "http://www.houseofblues.com/boston/EventDetail?tmeventid=347671&offerid=0",
      soldout := false }

/-- Expected record for the quoted Crossroads scenario. -/
def exCrRec : EJson :=
  Event.to_json
    { venue := "Paradise Rock Club", bands := ["Show"],
      start := sampleDT,
      link := "http://events.crossroadspresents.com/events/x",
      soldout := false }

/-- A houseofblues item with an empty artist list. -/
def exEmptyHobItem : HobItem :=
  { artists := [], title := "Orchestra", venueName := "House of Blues Boston",
    eventDate := "04/12/2018", eventID := "1", soldOut := false }

end GV

namespace GE

/-- `main()` of get_events.py, up to the file write: the Bowery
records followed by the `monthly_cals` records.  The `houseofblues`
call is commented out in the source and therefore absent. -/
def main (libs : GV.Libs) (net : GV.Network) (tm ty : Nat) :
    Except GV.PyErr (List GV.EJson) :=
  GV.bowery_shows libs net.boweryText >>= fun b =>
  GV.monthly_cals libs net tm ty >>= fun m =>
  Except.ok (b ++ m)

end GE

/-! ## Theorems -/

namespace GV

theorem dig_isDigit (n : Nat) : (dig n).isDigit = true := by
  have h : n % 10 < 10 := Nat.mod_lt _ (by decide)
  have hball : ∀ m, m < 10 → (Nat.digitChar m).isDigit = true := by decide
  exact hball _ h

theorem chk_d2 (n : Nat) (rest : List Char) :
    chkDigits 2 (d2 n ++ rest) = some rest := by
  simp [d2, chkDigits, dig_isDigit]

theorem chk_d4 (n : Nat) (rest : List Char) :
    chkDigits 4 (d4 n ++ rest) = some rest := by
  simp [d4, chkDigits, dig_isDigit]

theorem chk_d6 (n : Nat) (rest : List Char) :
    chkDigits 6 (d6 n ++ rest) = some rest := by
  simp [d6, chkDigits, dig_isDigit]

theorem chkOffset_offsetChars (tz : Option Int) :
    chkOffset (offsetChars tz) = true := by
  cases tz with
  | none => rfl
  | some off =>
    by_cases h : off < 0 <;>
      simp [offsetChars, chkOffset, h, chk_d2, chkDigits, dig_isDigit, d2]

theorem chkFrac_fracChars (micro : Nat) (tz : Option Int) :
    chkFrac (fracChars micro ++ offsetChars tz) = some (offsetChars tz) := by
  by_cases h : micro = 0
  · subst h
    cases tz with
    | none => rfl
    | some off =>
      by_cases hs : off < 0 <;> simp [fracChars, offsetChars, chkFrac, hs]
  · simp [fracChars, h, chkFrac, chk_d6]

/-- Every rendered `datetime.isoformat()` string passes the ISO-8601
recognizer. -/
theorem isoformat_isIso8601 (d : PyDatetime) : isIso8601 (isoformat d) = true := by
  show isIso8601L (isoformatL d) = true
  simp [isoformatL, isIso8601L, chk_d4, chk_d2, chkFrac_fracChars,
    chkOffset_offsetChars]

/-- Every serialized event satisfies the documented record shape. -/
theorem to_json_goodRecord (ev : Event) : goodRecord (Event.to_json ev) := by
  refine ⟨rfl, isoformat ev.start, ?_, isoformat_isIso8601 ev.start⟩
  simp [Event.to_json, List.lookup]

/-! ### Monadic helper lemmas -/

theorem exbind_ok {α β : Type} {x : Except PyErr α} {f : α → Except PyErr β} {b : β}
    (h : (x >>= f) = Except.ok b) : ∃ a, x = Except.ok a ∧ f a = Except.ok b := by
  cases x with
  | error e => simp [Bind.bind, Except.bind] at h
  | ok a => exact ⟨a, rfl, by simpa [Bind.bind, Except.bind] using h⟩

theorem exmap_ok {α β : Type} {x : Except PyErr α} {f : α → β} {b : β}
    (h : x.map f = Except.ok b) : ∃ a, x = Except.ok a ∧ b = f a := by
  cases x with
  | error e => simp [Except.map] at h
  | ok a => exact ⟨a, rfl, by simpa [Except.map] using h.symm⟩


theorem exMapList_ok_mem {α β : Type} {f : α → Except PyErr β} :
    ∀ {l : List α} {out : List β}, exMapList f l = Except.ok out →
      ∀ {r : β}, r ∈ out → ∃ a, a ∈ l ∧ f a = Except.ok r := by
  intro l
  induction l with
  | nil =>
    intro out h r hr
    simp only [exMapList, Except.ok.injEq] at h
    subst h
    simp at hr
  | cons a as ih =>
    intro out h r hr
    simp only [exMapList] at h
    obtain ⟨b, hb, h2⟩ := exbind_ok h
    obtain ⟨bs, hbs, h3⟩ := exbind_ok h2
    simp only [Except.ok.injEq] at h3
    subst h3
    rcases List.mem_cons.mp hr with hr | hr
    · subst hr
      exact ⟨a, by simp, hb⟩
    · obtain ⟨a2, ha2, hfa2⟩ := ih hbs hr
      exact ⟨a2, by simp [ha2], hfa2⟩

/-! ### Every adapter record is a serialized event -/

/-- Every output list element of an `Except`-valued adapter is the
serialization of some event. -/
def jsonImage (x : Except PyErr (List EJson)) : Prop :=
  ∀ out r, x = Except.ok out → r ∈ out → ∃ ev, r = Event.to_json ev

theorem bowery_event_process_image (libs : Libs) (e : ShowItem) {r : EJson}
    (h : bowery_event_process libs e = Except.ok r) : ∃ ev, r = Event.to_json ev := by
  obtain ⟨ev, _, hr⟩ := exmap_ok h
  exact ⟨ev, hr⟩

theorem bowery_shows_image (libs : Libs) (t : String) :
    jsonImage (bowery_shows libs t) := by
  intro out r h hr
  obtain ⟨e, _, he⟩ := exMapList_ok_mem h hr
  exact bowery_event_process_image libs e he

theorem meItemsLoop_image (libs : Libs) :
    ∀ (items : List JVal) {r : EJson}, r ∈ meItemsLoop libs items →
      ∃ ev, r = Event.to_json ev := by
  intro items
  induction items with
  | nil => intro r hr; simp [meItemsLoop] at hr
  | cons i rest ih =>
    intro r hr
    simp only [meItemsLoop] at hr
    cases hx : meItemExtract libs i with
    | ok r2 =>
      rw [hx] at hr
      rcases List.mem_cons.mp hr with hr | hr
      · subst hr
        obtain ⟨ev, _, hev⟩ := exmap_ok hx
        exact ⟨ev, hev⟩
      · exact ih hr
    | error e2 =>
      rw [hx] at hr
      exact ih hr

theorem middleeast_image (libs : Libs) (data : String) :
    jsonImage (middleeast libs data) := by
  intro out r h hr
  unfold middleeast at h
  split at h
  · simp only [Except.ok.injEq] at h
    subst h
    simp at hr
  · split at h
    · exact absurd h (by simp)
    · split at h
      · exact absurd h (by simp)
      · simp only [Except.ok.injEq] at h
        subst h
        exact meItemsLoop_image libs _ hr

theorem crEventsLoop_image (libs : Libs) :
    ∀ (events : List CrEvent) {out : List EJson} {r : EJson},
      crEventsLoop libs events = Except.ok out → r ∈ out →
      ∃ ev, r = Event.to_json ev := by
  intro events
  induction events with
  | nil =>
    intro out r h hr
    simp only [crEventsLoop, Except.ok.injEq] at h
    subst h
    simp at hr
  | cons e rest ih =>
    intro out r h hr
    simp only [crEventsLoop] at h
    by_cases hc : e.category_param = "music"
    · rw [if_pos hc] at h
      obtain ⟨r2, hr2, h2⟩ := exbind_ok h
      obtain ⟨tail, htail, h3⟩ := exbind_ok h2
      simp only [Except.ok.injEq] at h3
      subst h3
      rcases List.mem_cons.mp hr with hr | hr
      · subst hr
        obtain ⟨ev, _, hev⟩ := exmap_ok hr2
        exact ⟨ev, hev⟩
      · exact ih htail hr
    · rw [if_neg hc] at h
      exact ih h hr

theorem crossroads_parse_image (libs : Libs) (data : CrData) :
    jsonImage (crossroads_parse libs data) := by
  intro out r h hr
  exact crEventsLoop_image libs _ h hr

theorem hobItemProcess_image (libs : Libs) (i : HobItem) {r : EJson}
    (h : hobItemProcess libs i = Except.ok r) : ∃ ev, r = Event.to_json ev := by
  obtain ⟨ev, _, hr⟩ := exmap_ok h
  exact ⟨ev, hr⟩

theorem houseofblues_image (libs : Libs) (t : String) :
    jsonImage (houseofblues libs t) := by
  intro out r h hr
  unfold houseofblues at h
  split at h
  · exact absurd h (by simp)
  · obtain ⟨i, _, hi⟩ := exMapList_ok_mem h hr
    exact hobItemProcess_image libs i hi

theorem monthlyStep_image (libs : Libs) (net : Network) (p : Nat) (my : Nat × Nat) :
    jsonImage (monthlyStep libs net p my) := by
  intro out r h hr
  unfold monthlyStep at h
  obtain ⟨mePart, hme, h2⟩ := exbind_ok h
  obtain ⟨parPart, hpar, h3⟩ := exbind_ok h2
  obtain ⟨briPart, hbri, h4⟩ := exbind_ok h3
  simp only [Except.ok.injEq] at h4
  subst h4
  rcases List.mem_append.mp hr with hr | hr
  · rcases List.mem_append.mp hr with hr | hr
    · by_cases hs : (net.mideast my.1 my.2).status = 200
      · rw [if_pos hs] at hme
        exact middleeast_image libs _ _ _ hme hr
      · rw [if_neg hs] at hme
        simp only [Except.ok.injEq] at hme
        subst hme
        simp at hr
    · by_cases hs : (net.paradise p).status = 200
      · rw [if_pos hs] at hpar
        exact crossroads_parse_image libs _ _ _ hpar hr
      · rw [if_neg hs] at hpar
        simp only [Except.ok.injEq] at hpar
        subst hpar
        simp at hr
  · by_cases hs : (net.brighton p).status = 200
    · rw [if_pos hs] at hbri
      exact crossroads_parse_image libs _ _ _ hbri hr
    · rw [if_neg hs] at hbri
      simp only [Except.ok.injEq] at hbri
      subst hbri
      simp at hr

theorem monthlyLoop_image (libs : Libs) (net : Network) :
    ∀ (pairs : List (Nat × (Nat × Nat))), jsonImage (monthlyLoop libs net pairs) := by
  intro pairs
  induction pairs with
  | nil =>
    intro out r h hr
    simp only [monthlyLoop, Except.ok.injEq] at h
    subst h
    simp at hr
  | cons pmy rest ih =>
    intro out r h hr
    obtain ⟨p, my⟩ := pmy
    simp only [monthlyLoop] at h
    obtain ⟨part, hpart, h2⟩ := exbind_ok h
    obtain ⟨tail, htail, h3⟩ := exbind_ok h2
    simp only [Except.ok.injEq] at h3
    subst h3
    rcases List.mem_append.mp hr with hr | hr
    · exact monthlyStep_image libs net p my _ _ hpart hr
    · exact ih _ _ htail hr

theorem monthly_cals_image (libs : Libs) (net : Network) (tm ty : Nat) :
    jsonImage (monthly_cals libs net tm ty) :=
  monthlyLoop_image libs net _

end GV

namespace GV

/-! ### Claim C9: the default `start` value -/

/--
C9: the claim asserts that an `Event` constructed without a `start`
argument gets the current time at the moment of that construction,
whenever it happens.  In fact Python evaluated the default expression
once, at module-import time: at a clock whose seconds advance, a
construction at instant 1 still carries the instant-0 value.
-/
theorem C9_counterexample : defaultInitStart exClock 0 1 ≠ exClock 1 := by decide

/--
C9 (amended): the `start` of an `Event` constructed without an
explicit `start` argument equals the single datetime captured when the
class definition was executed (module-import time), regardless of when
the construction itself happens.
-/
theorem C9_default_start_module_time (clock : Nat → PyDatetime) (tLoad tCons : Nat) :
    defaultInitStart clock tLoad tCons = clock tLoad := rfl

/-! ### Claim C10: empty artist array in houseofblues -/

theorem hobItemProcess_empty (libs : Libs) (i : HobItem) (h : i.artists = []) :
    hobItemProcess libs i = Except.error PyErr.indexError := by
  simp [hobItemProcess, hobEvent, h, Except.map]

/--
C10: in the conventional JSON-API adapter, an item with an empty
artists array makes `artist_array.pop(0)` raise `IndexError`, so no
record is produced; consequently a non-empty artists array is a
precondition for every successfully processed item.
-/
theorem C10_empty_artists (libs : Libs) :
    (∀ i : HobItem, i.artists = [] →
       hobItemProcess libs i = Except.error PyErr.indexError) ∧
    (∀ (i : HobItem) (r : EJson),
       hobItemProcess libs i = Except.ok r → i.artists ≠ []) := by
  refine ⟨fun i h => hobItemProcess_empty libs i h, fun i r h hempty => ?_⟩
  rw [hobItemProcess_empty libs i hempty] at h
  exact absurd h (by simp)

theorem C10_witness :
    hobItemProcess exLibs exEmptyHobItem = Except.error PyErr.indexError :=
  (C10_empty_artists exLibs).1 exEmptyHobItem rfl

/-! ### Claim C8: tolerance of missing sub-elements in the HTML adapter -/

/--
C8 (counterexample): the claim asserts that an item missing its
location paragraph still yields a record without raising.  On a show
item where every lookup, the location paragraph included, finds
nothing, the parser raises `AttributeError`: the source chains
`e.find('p', class_='list-location').find('strong')` without guarding
the first lookup.
-/
theorem C8_counterexample :
    bowery_event_process exLibs noLocItem
      = Except.error (PyErr.attributeError "NoneType has no attribute find") := rfl

/--
C8 (amended): missing first hyperlink, calendar link, title block and
ticket button are tolerated, each leaving its field at the documented
default, and a record is still produced, provided the location
paragraph is present (a missing `<strong>` inside it is also
tolerated); but an item whose location paragraph itself is missing
raises an exception instead of yielding a record.
-/
theorem C8_missing_subelements (libs : Libs) (loc : LocP) (sp : Option SuppDiv) :
    (bowery_event_process libs
       { firstA := none, calendar := none, listLocation := some loc,
         infoTitle := none, supporting := sp, ticketText := none }
       = Except.ok (Event.to_json
           { venue := loc.strong.getD "", bands := [],
             start := libs.defaultStart, link := "", soldout := false })) ∧
    (∀ item : ShowItem, item.listLocation = none →
       ∃ err, bowery_event_process libs item = Except.error err) := by
  constructor
  · obtain ⟨st⟩ := loc
    cases st <;> rfl
  · intro item hloc
    unfold bowery_event_process boweryEvent
    cases h1 : boweryLinkStep item (Event.mkDefault libs.defaultStart) with
    | error e => exact ⟨e, by simp [h1, Bind.bind, Except.bind, Except.map]⟩
    | ok ev1 =>
      cases h2 : boweryStartStep libs item ev1 with
      | error e => exact ⟨e, by simp [h1, h2, Bind.bind, Except.bind, Except.map]⟩
      | ok ev2 =>
        refine ⟨PyErr.attributeError "NoneType has no attribute find", ?_⟩
        simp [h1, h2, Bind.bind, Except.bind, Except.map, boweryVenueStep, hloc]

theorem C8_witness :
    ∃ err, bowery_event_process exLibs noLocItem = Except.error err :=
  (C8_missing_subelements exLibs { strong := none } none).2 noLocItem rfl

/-! ### Claim C7: the 12-month sequence -/

theorem monthStep_eq_calNext (my : Nat × Nat) (h2 : my.1 ≤ 12) :
    monthStep my = calNextMonth my := by
  obtain ⟨m, y⟩ := my
  simp only [monthStep, calNextMonth]
  by_cases h : m = 12
  · subst h; simp
  · have hlt : ¬ (m + 1 > 12) := by simp at h2 ⊢; omega
    simp [hlt, h]

theorem monthStep_valid (my : Nat × Nat) (h1 : 1 ≤ my.1) (h2 : my.1 ≤ 12) :
    1 ≤ (monthStep my).1 ∧ (monthStep my).1 ≤ 12 := by
  obtain ⟨m, y⟩ := my
  simp only [monthStep]
  by_cases h : m + 1 > 12
  · rw [if_pos h]
    show 1 ≤ 1 ∧ 1 ≤ 12
    omega
  · rw [if_neg h]
    show 1 ≤ m + 1 ∧ m + 1 ≤ 12
    omega

theorem monthIter_length (n : Nat) : ∀ my, (monthIter n my).length = n := by
  induction n with
  | zero => intro my; rfl
  | succ k ih => intro my; simp [monthIter, ih]

theorem monthIter_chain (n : Nat) : ∀ (my : Nat × Nat), 1 ≤ my.1 → my.1 ≤ 12 →
    ∀ i, i + 1 < n →
      (monthIter n my).get? (i + 1) = ((monthIter n my).get? i).map calNextMonth := by
  induction n with
  | zero => intro my h1 h2 i hi; omega
  | succ k ih =>
    intro my h1 h2 i hi
    obtain ⟨hv1, hv2⟩ := monthStep_valid my h1 h2
    cases i with
    | zero =>
      obtain ⟨k2, rfl⟩ : ∃ k2, k = k2 + 1 := ⟨k - 1, by omega⟩
      show (monthIter (k2 + 1) (monthStep my)).get? 0
        = (some (monthStep my)).map calNextMonth
      simp only [monthIter, List.get?, Option.map]
      rw [monthStep_eq_calNext (monthStep my) hv2]
    | succ i2 =>
      show (monthIter k (monthStep my)).get? (i2 + 1)
        = ((monthIter k (monthStep my)).get? i2).map calNextMonth
      exact ih (monthStep my) hv1 hv2 i2 (by omega)

/--
C7: the month loop runs exactly 12 iterations; the requested
month/year pairs start at the calendar month after the current one and
advance by one calendar month per iteration, December rolling over to
January of the next year; and `monthly_cals` is driven by exactly this
sequence.
-/
theorem C7_month_sequence (tm ty : Nat) (h1 : 1 ≤ tm) (h2 : tm ≤ 12) :
    (monthSeq tm ty).length = 12 ∧
    (monthSeq tm ty).head? = some (calNextMonth (tm, ty)) ∧
    (∀ i, i + 1 < 12 →
      (monthSeq tm ty).get? (i + 1) = ((monthSeq tm ty).get? i).map calNextMonth) ∧
    (∀ (libs : Libs) (net : Network),
      monthly_cals libs net tm ty
        = monthlyLoop libs net ((List.range 12).zip (monthSeq tm ty))) := by
  refine ⟨monthIter_length 12 _, ?_, ?_, fun _ _ => rfl⟩
  · show (monthIter 12 (tm, ty)).head? = _
    rw [show (12 : Nat) = 11 + 1 from rfl]
    simp only [monthIter, List.head?]
    rw [monthStep_eq_calNext (tm, ty) h2]
  · exact monthIter_chain 12 (tm, ty) h1 h2

theorem C7_witness :
    (monthSeq 12 2018).length = 12 ∧
    (monthSeq 12 2018).head? = some (calNextMonth (12, 2018)) ∧
    (∀ i, i + 1 < 12 →
      (monthSeq 12 2018).get? (i + 1) = ((monthSeq 12 2018).get? i).map calNextMonth) ∧
    (∀ (libs : Libs) (net : Network),
      monthly_cals libs net 12 2018
        = monthlyLoop libs net ((List.range 12).zip (monthSeq 12 2018))) :=
  C7_month_sequence 12 2018 (by decide) (by decide)

end GV

namespace GV

/-! ### Claim C5: houseofblues bands -/

theorem hobNorm_eq_specNameNorm (s : String) : hobNorm s = specNameNorm s := by
  unfold hobNorm specNameNorm
  congr 1
  funext c
  rw [decide_eq_decide]
  omega

theorem hobEvent_cons (libs : Libs) (i : HobItem) (first : HobArtist)
    (rest : List HobArtist) (d : PyDatetime) (hart : i.artists = first :: rest)
    (hp : libs.dateutilParse i.eventDate = some d) :
    hobEvent libs i = Except.ok
      { venue := i.venueName
        bands := first.name :: (rest.filter (fun a =>
          !(hobNorm a.name == hobNorm i.title))).map HobArtist.name
        start := { d with tz := some libs.localOffset }
        link := "http://www.houseofblues.com/boston/EventDetail?tmeventid="
                  ++ i.eventID ++ "&offerid=0"
        soldout := i.soldOut } := by
  unfold hobEvent
  rw [hart, hp]

theorem hob_bands_general (libs : Libs) (i : HobItem) (first : HobArtist)
    (rest : List HobArtist) (r : EJson) (hart : i.artists = first :: rest)
    (h : hobItemProcess libs i = Except.ok r) :
    r.lookup "bands" = some (JVal.arr
      ((first.name :: (rest.filter (fun a =>
          !(specNameNorm a.name == specNameNorm i.title))).map HobArtist.name).map
        JVal.str)) := by
  cases hp : libs.dateutilParse i.eventDate with
  | none =>
    unfold hobItemProcess hobEvent at h
    rw [hart, hp] at h
    simp [Except.map] at h
  | some d =>
    unfold hobItemProcess at h
    rw [hobEvent_cons libs i first rest d hart hp] at h
    simp only [Except.map, Except.ok.injEq] at h
    subst h
    simp [Event.to_json, List.lookup, hobNorm_eq_specNameNorm]

/--
C5: in the conventional JSON-API adapter, the bands list is the first
artist name followed by each remaining artist whose name, lowercased
with non-ASCII characters stripped, differs from the similarly
normalized event title; in particular, for title `Lucy Dacus` with
artists `Lucy Dacus` and `And The Kids`, the bands are exactly `Lucy
Dacus` and `And The Kids`.
-/
theorem C5_hob_bands (libs : Libs) :
    (∀ (i : HobItem) (first : HobArtist) (rest : List HobArtist) (r : EJson),
       i.artists = first :: rest →
       hobItemProcess libs i = Except.ok r →
       r.lookup "bands" = some (JVal.arr
         ((first.name :: (rest.filter (fun a =>
             !(specNameNorm a.name == specNameNorm i.title))).map HobArtist.name).map
           JVal.str))) ∧
    (∀ (i : HobItem) (r : EJson),
       i.title = "Lucy Dacus" →
       i.artists = [{ name := "Lucy Dacus" }, { name := "And The Kids" }] →
       hobItemProcess libs i = Except.ok r →
       r.lookup "bands"
         = some (JVal.arr [JVal.str "Lucy Dacus", JVal.str "And The Kids"])) := by
  refine ⟨fun i first rest r hart h => hob_bands_general libs i first rest r hart h, ?_⟩
  intro i r htitle hart h
  have hg := hob_bands_general libs i { name := "Lucy Dacus" }
    [{ name := "And The Kids" }] r hart h
  rw [htitle] at hg
  exact hg

theorem C5_witness :
    ∃ r, hobItemProcess exLibs exHobItem = Except.ok r ∧
      r.lookup "bands"
        = some (JVal.arr [JVal.str "Lucy Dacus", JVal.str "And The Kids"]) :=
  ⟨exHobRec, rfl, (C5_hob_bands exLibs).2 exHobItem exHobRec rfl rfl rfl⟩

/-! ### Claim C6: crossroads bands and the quoted scenario -/

theorem crEvent_some (libs : Libs) (e : CrEvent) (d : PyDatetime)
    (hp : libs.dateutilParse e.tz_adjusted_begin_date = some d) :
    crEvent libs e = Except.ok
      { venue := e.venueTitle
        bands := if e.artists.isEmpty then [e.title]
                 else e.artists.map CrArtist.title
        start := d
        link := "http://events.crossroadspresents.com" ++ e.permalink
        soldout := e.sold_out } := by
  unfold crEvent
  rw [hp]

theorem crEventsLoop_singleton_music (libs : Libs) (e : CrEvent) (ev : Event)
    (hc : e.category_param = "music") (h : crEvent libs e = Except.ok ev) :
    crEventsLoop libs [e] = Except.ok [Event.to_json ev] := by
  unfold crEventsLoop
  rw [if_pos hc]
  unfold crEventProcess
  rw [h]
  rfl

/--
C6: every paginated-API music event yields a record whose bands are
the artist titles when any artists are present, else the singleton
event title; and the quoted single-event response yields exactly one
record with venue `Paradise Rock Club`, bands `Show`, a link ending in
`/events/x`, and soldout false.
-/
theorem C6_crossroads_bands (libs : Libs) :
    (∀ (e : CrEvent) (r : EJson),
       e.category_param = "music" →
       crEventProcess libs e = Except.ok r →
       r.lookup "bands" = some (JVal.arr
         ((if e.artists.isEmpty then [e.title]
           else e.artists.map CrArtist.title).map JVal.str))) ∧
    (∀ d : PyDatetime,
       libs.dateutilParse "2018-03-02T18:00:00-05:00" = some d →
       ∃ r, crossroads_parse libs exCrData = Except.ok [r] ∧
         r.lookup "venue" = some (JVal.str "Paradise Rock Club") ∧
         r.lookup "bands" = some (JVal.arr [JVal.str "Show"]) ∧
         (∃ lnk, r.lookup "link" = some (JVal.str lnk) ∧
            strEndsWith lnk "/events/x" = true) ∧
         r.lookup "soldout" = some (JVal.bool false)) := by
  constructor
  · intro e r hc h
    cases hp : libs.dateutilParse e.tz_adjusted_begin_date with
    | none =>
      unfold crEventProcess crEvent at h
      rw [hp] at h
      simp [Except.map] at h
    | some d =>
      unfold crEventProcess at h
      rw [crEvent_some libs e d hp] at h
      simp only [Except.map, Except.ok.injEq] at h
      subst h
      simp [Event.to_json, List.lookup]
  · intro d hp
    have hev : crEvent libs exCrEvent = Except.ok
        { venue := "Paradise Rock Club", bands := ["Show"], start := d,
          link := "http://events.crossroadspresents.com/events/x",
          soldout := false } := by
      have := crEvent_some libs exCrEvent d hp
      simpa [exCrEvent] using this
    refine ⟨Event.to_json
        { venue := "Paradise Rock Club", bands := ["Show"], start := d,
          link := "http://events.crossroadspresents.com/events/x",
          soldout := false }, ?_, ?_, ?_, ?_, ?_⟩
    · show crEventsLoop libs [exCrEvent] = _
      exact crEventsLoop_singleton_music libs exCrEvent _ rfl hev
    · simp [Event.to_json, List.lookup]
    · simp [Event.to_json, List.lookup]
    · refine ⟨"http://events.crossroadspresents.com/events/x", ?_, ?_⟩
      · simp [Event.to_json, List.lookup]
      · decide
    · simp [Event.to_json, List.lookup]

theorem C6_witness :
    ∃ r, crossroads_parse exLibs exCrData = Except.ok [r] ∧
      r.lookup "venue" = some (JVal.str "Paradise Rock Club") ∧
      r.lookup "bands" = some (JVal.arr [JVal.str "Show"]) ∧
      (∃ lnk, r.lookup "link" = some (JVal.str lnk) ∧
         strEndsWith lnk "/events/x" = true) ∧
      r.lookup "soldout" = some (JVal.bool false) :=
  (C6_crossroads_bands exLibs).2 sampleDT rfl

end GV

namespace GV

/-! ### Claim C2: per-item error isolation in middleeast -/

theorem meItemExtract_venue_fail (libs : Libs) (i : JVal) (v : String)
    (h1 : jGet i "venue" = Except.ok (JVal.str v)) (h2 : meVenueSearch v = none) :
    meItemExtract libs i
      = Except.error (PyErr.attributeError "NoneType has no attribute group") := by
  unfold meItemExtract meItemEvent
  rw [h1]
  simp [Bind.bind, Except.bind, asString, meVenueText, h2, Except.map]

/--
C2: when the embedded events array decodes to an item list, the
per-item `try`/`except` drops exactly the failing items and no
exception escapes: the output is the fold of the per-item successes;
in particular, for a five-item batch where item 3 has a malformed
nested venue fragment (the nested-div regex finds no match), the
output is exactly the four records of items 1, 2, 4 and 5.
-/
theorem C2_item_isolation :
    (∀ (libs : Libs) (data cap : String) (items : List JVal),
       meEventsSearch data = some cap →
       libs.demjsonDecode cap = Except.ok (JVal.arr items) →
       middleeast libs data = Except.ok (meItemsLoop libs items)) ∧
    (∀ (libs : Libs) (data cap : String) (i1 i2 i3 i4 i5 : JVal)
       (r1 r2 r4 r5 : EJson) (v3 : String),
       meEventsSearch data = some cap →
       libs.demjsonDecode cap = Except.ok (JVal.arr [i1, i2, i3, i4, i5]) →
       meItemExtract libs i1 = Except.ok r1 →
       meItemExtract libs i2 = Except.ok r2 →
       jGet i3 "venue" = Except.ok (JVal.str v3) →
       meVenueSearch v3 = none →
       meItemExtract libs i4 = Except.ok r4 →
       meItemExtract libs i5 = Except.ok r5 →
       middleeast libs data = Except.ok [r1, r2, r4, r5]) := by
  have hA : ∀ (libs : Libs) (data cap : String) (items : List JVal),
      meEventsSearch data = some cap →
      libs.demjsonDecode cap = Except.ok (JVal.arr items) →
      middleeast libs data = Except.ok (meItemsLoop libs items) := by
    intro libs data cap items hs hd
    unfold middleeast
    simp only [hs, hd, pyIter]
  refine ⟨hA, ?_⟩
  intro libs data cap i1 i2 i3 i4 i5 r1 r2 r4 r5 v3 hs hd h1 h2 hv3 hv3n h4 h5
  rw [hA libs data cap _ hs hd]
  simp [meItemsLoop, h1, h2, h4, h5, meItemExtract_venue_fail libs i3 v3 hv3 hv3n]

theorem C2_witness :
    middleeast exLibs "events: [x]"
      = Except.ok [exMeRec1, exMeRec2, exMeRec4, exMeRec5] :=
  C2_item_isolation.2 exLibs "events: [x]" "[x]"
    (meItem "<div class=v>Middle East Up</div>" "A, B" "2018-01-05 20:00:00" "e1")
    (meItem "<div class=v>Middle East Down</div>" "C" "2018-01-05 20:00:00" "e2")
    (meItem "no nested fragment" "D" "2018-01-05 20:00:00" "e3")
    (meItem "<div class=v>Sonia</div>" "E | F" "2018-01-05 20:00:00" "e4")
    (meItem "<div class=v>Zuzu</div>" "G" "2018-01-05 20:00:00" "e5")
    exMeRec1 exMeRec2 exMeRec4 exMeRec5 "no nested fragment"
    (by rfl) (by rfl) (by rfl) (by rfl) (by rfl) (by rfl) (by rfl) (by rfl)

/-! ### Claim C3: a non-success month response is skipped in isolation -/

theorem monthlyStep_setParadise (libs : Libs) (net : Network) (j : Nat)
    (resp : CrResp) (h : resp.status ≠ 200) (p : Nat) (my : Nat × Nat) :
    monthlyStep libs (net.setParadise j resp) p my
      = monthlyStepDropPar libs net j p my := by
  unfold monthlyStep monthlyStepDropPar Network.setParadise
  by_cases hp : p = j
  · simp [hp, h]
  · simp [hp]

theorem monthlyLoop_setParadise (libs : Libs) (net : Network) (j : Nat)
    (resp : CrResp) (h : resp.status ≠ 200) :
    ∀ pairs : List (Nat × (Nat × Nat)),
      monthlyLoop libs (net.setParadise j resp) pairs
        = monthlyLoopDropPar libs net j pairs := by
  intro pairs
  induction pairs with
  | nil => rfl
  | cons pmy rest ih =>
    obtain ⟨p, my⟩ := pmy
    simp only [monthlyLoop, monthlyLoopDropPar, ih,
      monthlyStep_setParadise libs net j resp h p my]

/--
C3: replacing the Paradise response of one period with any non-success
response makes that request contribute zero records and raise nothing,
while the mideast, Brighton and every other Paradise contribution stay
exactly those of the unmodified network: the run equals the original
loop with only the one Paradise part dropped.
-/
theorem C3_month_skip (libs : Libs) (net : Network) (tm ty j : Nat) (resp : CrResp)
    (h : resp.status ≠ 200) :
    monthly_cals libs (net.setParadise j resp) tm ty
      = monthlyLoopDropPar libs net j ((List.range 12).zip (monthSeq tm ty)) :=
  monthlyLoop_setParadise libs net j resp h _

theorem C3_witness :
    monthly_cals exLibs (exNet.setParadise 5 failResp) 12 2018
      = monthlyLoopDropPar exLibs exNet 5 ((List.range 12).zip (monthSeq 12 2018)) :=
  C3_month_skip exLibs exNet 12 2018 5 failResp (by decide)

end GV

namespace GV

/-! ### Claim C1: record shape across all adapters -/

/--
C1: every record any adapter returns serializes to exactly the five
keys venue, bands, start, link, soldout, and its start value is an
ISO-8601 timestamp string.
-/
theorem C1_five_keys_iso (libs : Libs) (net : Network) (tm ty : Nat)
    (boweryText meText hobText : String) (crData : CrData) :
    (∀ out r, bowery_shows libs boweryText = Except.ok out → r ∈ out →
       goodRecord r) ∧
    (∀ out r, monthly_cals libs net tm ty = Except.ok out → r ∈ out →
       goodRecord r) ∧
    (∀ out r, middleeast libs meText = Except.ok out → r ∈ out →
       goodRecord r) ∧
    (∀ out r, crossroads_parse libs crData = Except.ok out → r ∈ out →
       goodRecord r) ∧
    (∀ out r, houseofblues libs hobText = Except.ok out → r ∈ out →
       goodRecord r) := by
  refine ⟨?_, ?_, ?_, ?_, ?_⟩ <;> intro out r h hr
  · obtain ⟨ev, hev⟩ := bowery_shows_image libs boweryText out r h hr
    rw [hev]; exact to_json_goodRecord ev
  · obtain ⟨ev, hev⟩ := monthly_cals_image libs net tm ty out r h hr
    rw [hev]; exact to_json_goodRecord ev
  · obtain ⟨ev, hev⟩ := middleeast_image libs meText out r h hr
    rw [hev]; exact to_json_goodRecord ev
  · obtain ⟨ev, hev⟩ := crossroads_parse_image libs crData out r h hr
    rw [hev]; exact to_json_goodRecord ev
  · obtain ⟨ev, hev⟩ := houseofblues_image libs hobText out r h hr
    rw [hev]; exact to_json_goodRecord ev

theorem C1_witness : goodRecord exCrRec :=
  (C1_five_keys_iso exLibs exNet 12 2018 "" "" "" exCrData).2.2.2.1
    [exCrRec] exCrRec (by rfl) (by simp)

/-! ### Claim C4: aggregator order -/

/--
C4 (counterexample): the claim asserts the aggregator output is HTML
records, then the paginated pair block, then the embedded-JSON block,
then the conventional-API block.  On a concrete network the actual
output differs from that concatenation in two ways: the
conventional-API (houseofblues) records are absent (the call is
commented out), and within the month loop the embedded-JSON records
precede the paginated ones month by month rather than following them
as one block.
-/
theorem C4_counterexample :
    GE.main exLibs exNet 12 2018 ≠ claimedMainOrder exLibs exNet 12 2018 ∧
    GE.main exLibs exNet 12 2018 ≠ claimedMainOrderNoHob exLibs exNet 12 2018 := by
  constructor
  · intro h
    have h1 : (GE.main exLibs exNet 12 2018).map List.length = Except.ok 6 := by rfl
    have h2 : (claimedMainOrder exLibs exNet 12 2018).map List.length
        = Except.ok 7 := by rfl
    rw [h, h2] at h1
    exact absurd (Except.ok.inj h1) (by decide)
  · intro h
    have h1 : (GE.main exLibs exNet 12 2018).map (List.map venueOf)
        = Except.ok ["The Sinclair", "Middle East Up", "Middle East Down",
            "Sonia", "Zuzu", "Paradise Rock Club"] := by rfl
    have h2 : (claimedMainOrderNoHob exLibs exNet 12 2018).map (List.map venueOf)
        = Except.ok ["The Sinclair", "Paradise Rock Club", "Middle East Up",
            "Middle East Down", "Sonia", "Zuzu"] := by rfl
    rw [h, h2] at h1
    exact absurd (Except.ok.inj h1) (by decide)

theorem monthlyLoop_eq_flatten (libs : Libs) (net : Network) :
    ∀ pairs : List (Nat × (Nat × Nat)),
      monthlyLoop libs net pairs
        = (exMapList (fun pmy => monthlyStep libs net pmy.1 pmy.2) pairs).map
            List.flatten := by
  intro pairs
  induction pairs with
  | nil => rfl
  | cons pmy rest ih =>
    obtain ⟨p, my⟩ := pmy
    simp only [monthlyLoop, exMapList]
    cases hx : monthlyStep libs net p my with
    | error e => simp [Bind.bind, Except.bind, Except.map]
    | ok part =>
      rw [ih]
      cases hy : exMapList (fun pmy => monthlyStep libs net pmy.1 pmy.2) rest with
      | error e => simp [Bind.bind, Except.bind, Except.map]
      | ok parts => simp [Bind.bind, Except.bind, Except.map]

/--
C4 (amended): the aggregator returns the HTML adapter records followed
by the month-loop records, where each of the 12 months contributes, in
order, the embedded-JSON records, then the first paginated venue
records, then the second paginated venue records (`monthlyStep`); the
conventional-API adapter is never invoked (its call is commented out).
-/
theorem C4_aggregator_order (libs : Libs) (net : Network) (tm ty : Nat) :
    GE.main libs net tm ty
      = (bowery_shows libs net.boweryText >>= fun b =>
         (exMapList (fun pmy => monthlyStep libs net pmy.1 pmy.2)
             ((List.range 12).zip (monthSeq tm ty))).map List.flatten >>= fun m =>
         Except.ok (b ++ m)) := by
  unfold GE.main monthly_cals
  rw [monthlyLoop_eq_flatten]

end GV
